import Mathlib

/-!
Verification of the gesture-controlled Christmas scene.

The development shallowly embeds the two source modules:

* `gestureService.ts` — hand-landmark classification (`processGestures`,
  `predict`) mapping a 21-point landmark set to a scene mode and a palm
  pointer;
* `threeScene.ts` — the particle choreography (`setMode`,
  `addPhotoToScene`, per-frame particle update, `updateInteraction`).

Randomness (`Math.random()`) is modelled as an explicit stream
`rng : ℕ → ℝ` of draws, consumed in the same order as the code consumes
calls to `Math.random()`; a stream is valid when every draw lies in
`[0, 1)`.  Coordinates are real numbers; JavaScript `Math.hypot`,
`Math.cos`, `Math.sin`, `Math.acos`, `Math.sqrt` and `Math.PI` become
their exact counterparts on `ℝ`.
-/

noncomputable section

namespace ChristmasTree

/-- 3D vector, the embedding of `THREE.Vector3` (and of `THREE.Euler`,
whose x/y/z angles are all the scene uses). -/
structure Vec3 where
  x : ℝ
  y : ℝ
  z : ℝ
deriving DecidableEq

/-- Scene modes, from `types.ts` (`enum SceneMode`). -/
inductive SceneMode where
  | TREE
  | SCATTER
  | FOCUS
deriving DecidableEq

/-- Particle categories, from `ParticleConfig.type`. -/
inductive PType where
  | BOX
  | SPHERE
  | CANDY
  | PHOTO
deriving DecidableEq

/-- One landmark point with normalized coordinates (MediaPipe hand
landmark). -/
def Landmarks : Type := Fin 21 → Vec3

/-- JavaScript `Math.hypot(a, b, c)`. -/
def hypot3 (a b c : ℝ) : ℝ := Real.sqrt (a ^ 2 + b ^ 2 + c ^ 2)

/-- Euclidean distance between two landmark points, as computed by the
code via `Math.hypot` of the coordinate differences. -/
def dist3 (p q : Vec3) : ℝ := hypot3 (p.x - q.x) (p.y - q.y) (p.z - q.z)

/-- `pinchDist` of `processGestures`: 3D distance between thumb tip
(landmark 4) and index tip (landmark 8). -/
def pinchDist (lm : Landmarks) : ℝ := dist3 (lm 4) (lm 8)

/-- The four fingertip-to-wrist distances of `processGestures`
(`[index, ...fingers].map(...)` with fingers = landmarks 12, 16, 20 and
wrist = landmark 0). -/
def fingertipDists (lm : Landmarks) : List ℝ :=
  [dist3 (lm 8) (lm 0), dist3 (lm 12) (lm 0),
   dist3 (lm 16) (lm 0), dist3 (lm 20) (lm 0)]

/-- `avgDist` of `processGestures`: the mean of the four fingertip-to-
wrist distances (`reduce((a,b) => a+b, 0) / dists.length`). -/
def avgDist (lm : Landmarks) : ℝ :=
  (fingertipDists lm).sum / (fingertipDists lm).length

/-- `GestureService.processGestures`: pinch check, then fist check, then
open-hand check, then the TREE fallback. -/
def processGestures (lm : Landmarks) : SceneMode :=
  if pinchDist lm < 0.05 then SceneMode.FOCUS
  else if avgDist lm < 0.25 then SceneMode.TREE
  else if avgDist lm > 0.4 then SceneMode.SCATTER
  else SceneMode.TREE

/-- The payload `GestureService.predict` hands to `onUpdate`. -/
structure GestureData where
  mode : SceneMode
  palmCenter : Option (ℝ × ℝ)
deriving DecidableEq

/-- The per-frame result of `GestureService.predict`, as a function of
the detector output (`none` models `results.landmarks` empty or
absent). -/
def predictResult : Option Landmarks → GestureData
  | none => { mode := SceneMode.TREE, palmCenter := none }
  | some lm =>
      { mode := processGestures lm
        palmCenter := some ((lm 9).x, (lm 9).y) }

/-- The all-origin landmark set (a concrete input for the theorems
below). -/
def lmZero : Landmarks := fun _ => ⟨0, 0, 0⟩

/-- A landmark set with only the thumb tip away from the origin
(a concrete input for the theorems below). -/
def lmFist : Landmarks := fun i => if i = (4 : Fin 21) then ⟨1, 0, 0⟩ else ⟨0, 0, 0⟩

/-- The state of one `Particle` object: its category and creation index,
the choreography targets set by `setMode`, the uniform mesh scale, the
current mesh position and rotation, and the fixed random velocity vector
chosen at construction. -/
structure Particle where
  ptype : PType
  originIndex : ℕ
  targetPos : Vec3
  targetRot : Vec3
  scale : ℝ
  pos : Vec3
  rot : Vec3
  velocity : Vec3
deriving DecidableEq

instance : Inhabited Particle :=
  ⟨{ ptype := PType.BOX, originIndex := 0, targetPos := ⟨0, 0, 0⟩,
     targetRot := ⟨0, 0, 0⟩, scale := 1, pos := ⟨0, 0, 0⟩,
     rot := ⟨0, 0, 0⟩, velocity := ⟨0, 0, 0⟩ }⟩

/-- The mutable state of `ChristmasScene` that the choreography touches:
the particle list, the current mode, the focus-target index, and the
rotation of `mainGroup`. -/
structure SceneState where
  particles : List Particle
  mode : SceneMode
  focusTargetIdx : Option ℕ
  groupRot : Vec3
deriving DecidableEq

/-- A stream of `Math.random()` draws; every JavaScript draw lies in
`[0, 1)`. -/
def ValidRng (rng : ℕ → ℝ) : Prop := ∀ n, 0 ≤ rng n ∧ rng n < 1

/-- `THREE.MathUtils.lerp x y t = x + (y - x) * t` (also the effect of
`Vector3.lerp`). -/
def lerp (x y t : ℝ) : ℝ := x + (y - x) * t

/-- Componentwise `Vector3.lerp`. -/
def vlerp (a b : Vec3) (t : ℝ) : Vec3 :=
  ⟨lerp a.x b.x t, lerp a.y b.y t, lerp a.z b.z t⟩

/-- Interpolation parameter of the TREE layout: `t = i / N`. -/
def treeT (i N : ℕ) : ℝ := (i : ℝ) / (N : ℝ)

/-- Spiral angle of the TREE layout: `angle = t * 45 * Math.PI`. -/
def treeAngle (i N : ℕ) : ℝ := treeT i N * 45 * Real.pi

/-- Shrinking radius of the TREE layout: `radius = maxRadius * (1 - t)`
with `maxRadius = 14`. -/
def treeRadius (i N : ℕ) : ℝ := 14 * (1 - treeT i N)

/-- Target position of particle `i` of `N` in the TREE layout:
`(cos(angle)*radius, t*26 - 12, sin(angle)*radius)`. -/
def treePos (i N : ℕ) : Vec3 :=
  ⟨Real.cos (treeAngle i N) * treeRadius i N,
   treeT i N * 26 - 12,
   Real.sin (treeAngle i N) * treeRadius i N⟩

/-- Polar angle of the SCATTER layout: `phi = acos(-1 + 2i/N)`. -/
def scatterPhi (i N : ℕ) : ℝ := Real.arccos (-1 + 2 * (i : ℝ) / (N : ℝ))

/-- Azimuth of the SCATTER layout: `theta = sqrt(N * PI) * phi`. -/
def scatterTheta (i N : ℕ) : ℝ := Real.sqrt ((N : ℝ) * Real.pi) * scatterPhi i N

/-- Shell radius of the SCATTER layout for the draw `u`:
`radius = 8 + u * 14`. -/
def scatterRadius (u : ℝ) : ℝ := 8 + u * 14

/-- Target position of particle `i` of `N` in the SCATTER layout, for
the radius draw `u`. -/
def scatterPos (i N : ℕ) (u : ℝ) : Vec3 :=
  ⟨scatterRadius u * Real.cos (scatterTheta i N) * Real.sin (scatterPhi i N),
   scatterRadius u * Real.sin (scatterTheta i N) * Real.sin (scatterPhi i N),
   scatterRadius u * Real.cos (scatterPhi i N)⟩

/-- Background-ring position of a non-focused particle in the FOCUS
layout, for the draws `u1` (angle) and `u2` (distance):
`(cos(angle)*dist, sin(angle)*dist, -15)` with `angle = u1 * PI * 2` and
`dist = 30 + u2 * 15`. -/
def focusBackPos (u1 u2 : ℝ) : Vec3 :=
  ⟨Real.cos (u1 * Real.pi * 2) * (30 + u2 * 15),
   Real.sin (u1 * Real.pi * 2) * (30 + u2 * 15),
   -15⟩

/-- The body of the `particles.forEach` loop of `setMode`, acting on one
particle: `i` is the loop index, `N` the particle count, `fIdx` the
focus-target index, and `k` the position in the random stream before
this particle's draws.  Returns the updated particle and the stream
position after its draws (TREE draws nothing; SCATTER draws the radius;
FOCUS draws nothing for the focused particle and angle then distance for
the others). -/
def applyMode (m : SceneMode) (fIdx : Option ℕ) (N i : ℕ) (rng : ℕ → ℝ)
    (k : ℕ) (p : Particle) : Particle × ℕ :=
  match m with
  | SceneMode.TREE =>
      ({ p with
          targetPos := treePos i N
          targetRot := ⟨0, treeAngle i N, 0⟩
          scale := 1 }, k)
  | SceneMode.SCATTER =>
      ({ p with
          targetPos := scatterPos i N (rng k)
          scale := 1 }, k + 1)
  | SceneMode.FOCUS =>
      if fIdx = some i then
        ({ p with targetPos := ⟨0, 2, 35⟩, targetRot := ⟨0, 0, 0⟩, scale := 4.5 }, k)
      else
        ({ p with
            targetPos := focusBackPos (rng k) (rng (k + 1))
            scale := 0.4 }, k + 2)

/-- The `particles.forEach` loop of `setMode`: walks the list carrying
the loop index `i` and the random-stream position `k`. -/
def applyModeList (m : SceneMode) (fIdx : Option ℕ) (N : ℕ) (rng : ℕ → ℝ) :
    ℕ → ℕ → List Particle → List Particle × ℕ
  | _, k, [] => ([], k)
  | i, k, p :: ps =>
      let pk := applyMode m fIdx N i rng k p
      let rest := applyModeList m fIdx N rng (i + 1) pk.2 ps
      (pk.1 :: rest.1, rest.2)

/-- `this.particles.filter(p => p.type === 'PHOTO')`. -/
def photosOf (s : SceneState) : List Particle :=
  s.particles.filter fun p => p.ptype = PType.PHOTO

/-- The focus-target selection at the top of `setMode(FOCUS)`: when
photo particles exist, draw one uniformly
(`photos[Math.floor(Math.random() * photos.length)]`) and record its
`originIndex`, consuming one draw; otherwise leave `focusTargetIdx`
as it is, consuming nothing. -/
def focusPick (s : SceneState) (rng : ℕ → ℝ) : Option ℕ × ℕ :=
  let photos := photosOf s
  if 0 < photos.length then
    (some ((photos.getD (⌊rng 0 * (photos.length : ℝ)⌋₊) default).originIndex), 1)
  else (s.focusTargetIdx, 0)

/-- `ChristmasScene.setMode`: records the mode, updates
`focusTargetIdx` (picked for FOCUS, cleared otherwise), then recomputes
every particle's target via the `forEach` loop. -/
def setMode (m : SceneMode) (rng : ℕ → ℝ) (s : SceneState) : SceneState :=
  let fk : Option ℕ × ℕ :=
    match m with
    | SceneMode.FOCUS => focusPick s rng
    | _ => (none, 0)
  { s with
      mode := m
      focusTargetIdx := fk.1
      particles := (applyModeList m fk.1 s.particles.length rng 0 fk.2 s.particles).1 }

/-- A freshly constructed `Particle` (mesh at the origin, unit scale,
zero targets); `vel` is its random velocity vector. -/
def mkParticle (t : PType) (idx : ℕ) (vel : Vec3) : Particle :=
  { ptype := t, originIndex := idx, targetPos := ⟨0, 0, 0⟩,
    targetRot := ⟨0, 0, 0⟩, scale := 1, pos := ⟨0, 0, 0⟩,
    rot := ⟨0, 0, 0⟩, velocity := vel }

/-- `ChristmasScene.addPhotoToScene`: appends a PHOTO particle whose
index is the current particle count, then re-runs `setMode` with the
current mode. -/
def addPhotoToScene (vel : Vec3) (rng : ℕ → ℝ) (s : SceneState) : SceneState :=
  setMode s.mode rng
    { s with particles := s.particles ++ [mkParticle PType.PHOTO s.particles.length vel] }

/-- `Particle.update`: lerp the mesh position toward the target (slower
in FOCUS), then either tumble (SCATTER), drift (FOCUS, non-focused), or
align the rotation to the target. -/
def particleUpdate (mode : SceneMode) (focusTarget : Option ℕ) (p : Particle) : Particle :=
  let lerpSpeed : ℝ := if mode = SceneMode.FOCUS then 0.04 else 0.08
  let q := { p with pos := vlerp p.pos p.targetPos lerpSpeed }
  if mode = SceneMode.SCATTER then
    { q with rot := ⟨q.rot.x + q.velocity.x * 2.5,
                     q.rot.y + q.velocity.y * 2.5,
                     q.rot.z + q.velocity.z * 2.5⟩ }
  else if mode = SceneMode.FOCUS ∧ focusTarget ≠ some p.originIndex then
    { q with
        pos := ⟨q.pos.x + q.velocity.x * 0.05,
                q.pos.y + q.velocity.y * 0.05,
                q.pos.z + q.velocity.z * 0.05⟩
        rot := ⟨q.rot.x + q.velocity.x * 0.2,
                q.rot.y + q.velocity.y * 0.2,
                q.rot.z⟩ }
  else
    { q with rot := ⟨lerp q.rot.x q.targetRot.x 0.06,
                     lerp q.rot.y q.targetRot.y 0.06,
                     lerp q.rot.z q.targetRot.z 0.06⟩ }

/-- One frame of the `animate` loop, restricted to the choreography
state: every particle is updated with the current mode and focus
target. -/
def tick (s : SceneState) : SceneState :=
  { s with particles := s.particles.map (particleUpdate s.mode s.focusTargetIdx) }

/-- `ChristmasScene.updateInteraction`: with no pointer the state is
untouched; with a pointer the group rotation is lerped toward targets
derived from the pointer's displacement from the frame center. -/
def updateInteraction (palmCenter : Option (ℝ × ℝ)) (s : SceneState) : SceneState :=
  match palmCenter with
  | none => s
  | some c =>
      let targetRX : ℝ := (c.2 - 0.5) * (-0.6)
      let targetRY : ℝ := (c.1 - 0.5) * 0.9
      { s with
          groupRot := ⟨lerp s.groupRot.x targetRX 0.08,
                       lerp s.groupRot.y targetRY 0.08,
                       s.groupRot.z⟩ }

/-- The focus-target invariant of the scene: the focus index is cleared
outside FOCUS, and when set it names the `originIndex` of a PHOTO
particle in the list. -/
def Invariant (s : SceneState) : Prop :=
  (s.mode ≠ SceneMode.FOCUS → s.focusTargetIdx = none) ∧
  ∀ j, s.focusTargetIdx = some j →
    ∃ p, p ∈ s.particles ∧ p.ptype = PType.PHOTO ∧ p.originIndex = j

/-- One externally triggered transition of the scene: a gesture-driven
mode change, a photo upload, a render frame, or a pointer update.  The
random streams consumed by a transition are valid `Math.random`
streams. -/
inductive Step : SceneState → SceneState → Prop where
  | set_mode (s : SceneState) (m : SceneMode) (rng : ℕ → ℝ) (h : ValidRng rng) :
      Step s (setMode m rng s)
  | add_photo (s : SceneState) (vel : Vec3) (rng : ℕ → ℝ) (h : ValidRng rng) :
      Step s (addPhotoToScene vel rng s)
  | frame (s : SceneState) : Step s (tick s)
  | interact (s : SceneState) (pc : Option (ℝ × ℝ)) : Step s (updateInteraction pc s)

/-- The 1500 decoration particles built by `initParticles`: categories
and velocities are random (abstracted as the streams `types` and
`vels`), the index is the creation order. -/
def baseParticles (types : ℕ → PType) (vels : ℕ → Vec3) : List Particle :=
  (List.range 1500).map fun i => mkParticle (types i) i (vels i)

/-- The scene after the constructor ran: `initParticles` (1500
decorations, then `setMode(TREE)`) followed by `initPhotoWall` (one
photo via `addPhotoToScene`). -/
def initScene (types : ℕ → PType) (vels : ℕ → Vec3) (rng1 rng2 : ℕ → ℝ)
    (vel : Vec3) : SceneState :=
  addPhotoToScene vel rng2
    (setMode SceneMode.TREE rng1
      { particles := baseParticles types vels, mode := SceneMode.TREE,
        focusTargetIdx := none, groupRot := ⟨0, 0, 0⟩ })

/-- A state the constructor can produce, for some random streams. -/
def InitState (s : SceneState) : Prop :=
  ∃ types vels rng1 rng2 vel, ValidRng rng1 ∧ ValidRng rng2 ∧
    s = initScene types vels rng1 rng2 vel

/-- States reachable from construction by any sequence of
transitions. -/
inductive Reachable : SceneState → Prop where
  | init (s : SceneState) (h : InitState s) : Reachable s
  | step (s t : SceneState) (h : Reachable s) (hs : Step s t) : Reachable t

/-- The all-zero random stream (a concrete valid stream for the
theorems below). -/
def rngZero : ℕ → ℝ := fun _ => 0

/-- The constant one-half random stream (a concrete valid stream for
the theorems below). -/
def rngHalf : ℕ → ℝ := fun _ => (1 : ℝ) / 2

/-- A one-particle scene holding a single decoration (a concrete input
for the theorems below). -/
def sOne : SceneState :=
  { particles := [mkParticle PType.BOX 0 ⟨0, 0, 0⟩], mode := SceneMode.TREE,
    focusTargetIdx := none, groupRot := ⟨0, 0, 0⟩ }

/-- A two-particle scene holding two decorations (a concrete input for
the theorems below). -/
def sPair : SceneState :=
  { particles := [mkParticle PType.BOX 0 ⟨0, 0, 0⟩, mkParticle PType.SPHERE 1 ⟨0, 0, 0⟩],
    mode := SceneMode.TREE, focusTargetIdx := none, groupRot := ⟨0, 0, 0⟩ }

end ChristmasTree

namespace ChristmasTree

lemma applyMode_ptype (m : SceneMode) (f : Option ℕ) (N i : ℕ) (rng : ℕ → ℝ)
    (k : ℕ) (p : Particle) : ((applyMode m f N i rng k p).1).ptype = p.ptype := by
  cases m
  · rfl
  · rfl
  · unfold applyMode
    by_cases h : f = some i
    · rw [if_pos h]
    · rw [if_neg h]

lemma applyMode_originIndex (m : SceneMode) (f : Option ℕ) (N i : ℕ) (rng : ℕ → ℝ)
    (k : ℕ) (p : Particle) :
    ((applyMode m f N i rng k p).1).originIndex = p.originIndex := by
  cases m
  · rfl
  · rfl
  · unfold applyMode
    by_cases h : f = some i
    · rw [if_pos h]
    · rw [if_neg h]

lemma applyModeList_length (m : SceneMode) (f : Option ℕ) (N : ℕ) (rng : ℕ → ℝ) :
    ∀ (l : List Particle) (i k : ℕ),
      ((applyModeList m f N rng i k l).1).length = l.length := by
  intro l
  induction l with
  | nil => intro i k; rfl
  | cons p ps ih =>
      intro i k
      simp only [applyModeList, List.length_cons, ih]

lemma applyModeList_infoMap (m : SceneMode) (f : Option ℕ) (N : ℕ) (rng : ℕ → ℝ) :
    ∀ (l : List Particle) (i k : ℕ),
      ((applyModeList m f N rng i k l).1).map (fun p => (p.ptype, p.originIndex)) =
        l.map fun p => (p.ptype, p.originIndex) := by
  intro l
  induction l with
  | nil => intro i k; rfl
  | cons p ps ih =>
      intro i k
      simp only [applyModeList, List.map_cons, ih, applyMode_ptype, applyMode_originIndex]

lemma applyModeList_getElem (m : SceneMode) (f : Option ℕ) (N : ℕ) (rng : ℕ → ℝ)
    (c : ℕ) (hc : ∀ i k p, (applyMode m f N i rng k p).2 = k + c) :
    ∀ (l : List Particle) (i k j : ℕ),
      ((applyModeList m f N rng i k l).1)[j]? =
        (l[j]?).map fun p => (applyMode m f N (i + j) rng (k + c * j) p).1 := by
  intro l
  induction l with
  | nil => intro i k j; simp [applyModeList]
  | cons p ps ih =>
      intro i k j
      cases j with
      | zero => simp [applyModeList]
      | succ n =>
          simp only [applyModeList, List.getElem?_cons_succ, hc i k p, ih (i + 1) (k + c) n]
          have e1 : i + 1 + n = i + (n + 1) := by omega
          have e2 : k + c + c * n = k + c * (n + 1) := by ring
          rw [e1, e2]

lemma applyMode_tree_snd (f : Option ℕ) (N : ℕ) (rng : ℕ → ℝ) :
    ∀ (i k : ℕ) (p : Particle), (applyMode SceneMode.TREE f N i rng k p).2 = k + 0 :=
  fun _ _ _ => rfl

lemma applyMode_scatter_snd (f : Option ℕ) (N : ℕ) (rng : ℕ → ℝ) :
    ∀ (i k : ℕ) (p : Particle), (applyMode SceneMode.SCATTER f N i rng k p).2 = k + 1 :=
  fun _ _ _ => rfl

lemma applyMode_focus_none_snd (N : ℕ) (rng : ℕ → ℝ) :
    ∀ (i k : ℕ) (p : Particle), (applyMode SceneMode.FOCUS none N i rng k p).2 = k + 2 := by
  intro i k p
  unfold applyMode
  rw [if_neg (by simp)]

lemma setMode_nonfocus_particles (m : SceneMode) (hm : m ≠ SceneMode.FOCUS)
    (rng : ℕ → ℝ) (s : SceneState) :
    (setMode m rng s).particles =
      (applyModeList m none s.particles.length rng 0 0 s.particles).1 := by
  cases m
  · rfl
  · rfl
  · exact absurd rfl hm

lemma setMode_nonfocus_focusTargetIdx (m : SceneMode) (hm : m ≠ SceneMode.FOCUS)
    (rng : ℕ → ℝ) (s : SceneState) : (setMode m rng s).focusTargetIdx = none := by
  cases m
  · rfl
  · rfl
  · exact absurd rfl hm

lemma setMode_length (m : SceneMode) (rng : ℕ → ℝ) (s : SceneState) :
    (setMode m rng s).particles.length = s.particles.length :=
  applyModeList_length ..

lemma setMode_infoMap (m : SceneMode) (rng : ℕ → ℝ) (s : SceneState) :
    (setMode m rng s).particles.map (fun p => (p.ptype, p.originIndex)) =
      s.particles.map fun p => (p.ptype, p.originIndex) :=
  applyModeList_infoMap ..

lemma setMode_mode (m : SceneMode) (rng : ℕ → ℝ) (s : SceneState) :
    (setMode m rng s).mode = m := rfl

lemma sceneExt (a b : SceneState) (h1 : a.particles = b.particles)
    (h2 : a.mode = b.mode) (h3 : a.focusTargetIdx = b.focusTargetIdx)
    (h4 : a.groupRot = b.groupRot) : a = b := by
  cases a
  cases b
  simp_all

lemma exists_photo_iff (l : List Particle) (j : ℕ) :
    (∃ p, p ∈ l ∧ p.ptype = PType.PHOTO ∧ p.originIndex = j) ↔
      (PType.PHOTO, j) ∈ l.map fun p => (p.ptype, p.originIndex) := by
  rw [List.mem_map]
  constructor
  · rintro ⟨p, hp, h1, h2⟩
    exact ⟨p, hp, by rw [h1, h2]⟩
  · rintro ⟨p, hp, h⟩
    rw [Prod.mk.injEq] at h
    exact ⟨p, hp, h.1, h.2⟩

lemma mem_photosOf (s : SceneState) (p : Particle) :
    p ∈ photosOf s ↔ p ∈ s.particles ∧ p.ptype = PType.PHOTO := by
  unfold photosOf
  rw [List.mem_filter]
  simp only [decide_eq_true_eq]

lemma invariant_setMode (m : SceneMode) (rng : ℕ → ℝ) (hrng : ValidRng rng)
    (s : SceneState) (h : Invariant s) : Invariant (setMode m rng s) := by
  by_cases hm : m = SceneMode.FOCUS
  · subst hm
    constructor
    · intro hne
      exact absurd (setMode_mode SceneMode.FOCUS rng s) hne
    · intro j hj
      have hfk : (setMode SceneMode.FOCUS rng s).focusTargetIdx = (focusPick s rng).1 := rfl
      rw [hfk] at hj
      rw [exists_photo_iff, setMode_infoMap, ← exists_photo_iff]
      unfold focusPick at hj
      by_cases hph : 0 < (photosOf s).length
      · rw [if_pos hph] at hj
        have hidx : ⌊rng 0 * ((photosOf s).length : ℝ)⌋₊ < (photosOf s).length := by
          obtain ⟨h0, h1⟩ := hrng 0
          have hlt : rng 0 * ((photosOf s).length : ℝ) < ((photosOf s).length : ℝ) := by
            have hc : (0 : ℝ) < ((photosOf s).length : ℝ) := by exact_mod_cast hph
            nlinarith
          exact Nat.floor_lt (by positivity) |>.2 hlt
        have hd : (photosOf s).getD ⌊rng 0 * ((photosOf s).length : ℝ)⌋₊ default ∈ photosOf s := by
          rw [List.getD_eq_getElem?_getD, List.getElem?_eq_getElem hidx]
          exact List.getElem_mem ..
        rw [mem_photosOf] at hd
        obtain hj2 := Option.some.inj hj
        exact ⟨_, hd.1, hd.2, hj2⟩
      · rw [if_neg hph] at hj
        exact h.2 j hj
  · constructor
    · intro _
      exact setMode_nonfocus_focusTargetIdx m hm rng s
    · intro j hj
      rw [setMode_nonfocus_focusTargetIdx m hm rng s] at hj
      exact Option.noConfusion hj

lemma invariant_addPhoto (vel : Vec3) (rng : ℕ → ℝ) (hrng : ValidRng rng)
    (s : SceneState) (h : Invariant s) : Invariant (addPhotoToScene vel rng s) := by
  unfold addPhotoToScene
  apply invariant_setMode _ _ hrng
  constructor
  · intro hne
    exact h.1 hne
  · intro j hj
    obtain ⟨p, hp, h1, h2⟩ := h.2 j hj
    exact ⟨p, List.mem_append_left _ hp, h1, h2⟩

lemma particleUpdate_ptype (m : SceneMode) (f : Option ℕ) (p : Particle) :
    (particleUpdate m f p).ptype = p.ptype := by
  unfold particleUpdate
  by_cases h1 : m = SceneMode.SCATTER
  · rw [if_pos h1]
  · rw [if_neg h1]
    by_cases h2 : m = SceneMode.FOCUS ∧ f ≠ some p.originIndex
    · rw [if_pos h2]
    · rw [if_neg h2]

lemma particleUpdate_originIndex (m : SceneMode) (f : Option ℕ) (p : Particle) :
    (particleUpdate m f p).originIndex = p.originIndex := by
  unfold particleUpdate
  by_cases h1 : m = SceneMode.SCATTER
  · rw [if_pos h1]
  · rw [if_neg h1]
    by_cases h2 : m = SceneMode.FOCUS ∧ f ≠ some p.originIndex
    · rw [if_pos h2]
    · rw [if_neg h2]

lemma invariant_tick (s : SceneState) (h : Invariant s) : Invariant (tick s) := by
  constructor
  · intro hne
    exact h.1 hne
  · intro j hj
    obtain ⟨p, hp, h1, h2⟩ := h.2 j hj
    refine ⟨particleUpdate s.mode s.focusTargetIdx p, List.mem_map_of_mem _ hp, ?_, ?_⟩
    · rw [particleUpdate_ptype, h1]
    · rw [particleUpdate_originIndex, h2]

lemma invariant_interact (pc : Option (ℝ × ℝ)) (s : SceneState) (h : Invariant s) :
    Invariant (updateInteraction pc s) := by
  cases pc with
  | none => exact h
  | some c => exact ⟨h.1, h.2⟩

lemma invariant_base (l : List Particle) (m : SceneMode) (g : Vec3) :
    Invariant { particles := l, mode := m, focusTargetIdx := none, groupRot := g } :=
  ⟨fun _ => rfl, fun _ hj => Option.noConfusion hj⟩

lemma focusTargetIdx_none_of_no_photos (s : SceneState) (h : Invariant s)
    (hph : photosOf s = []) : s.focusTargetIdx = none := by
  cases hf : s.focusTargetIdx with
  | none => rfl
  | some j =>
      obtain ⟨p, hp, h1, h2⟩ := h.2 j hf
      have : p ∈ photosOf s := (mem_photosOf s p).2 ⟨hp, h1⟩
      rw [hph] at this
      exact absurd this (List.not_mem_nil p)

/-- Claim C1: whenever the thumb-tip-to-index-tip distance is strictly
below 0.05, `processGestures` classifies the hand as FOCUS, whatever the
remaining landmarks are. -/
theorem pinch_forces_focus (lm : Landmarks) (h : pinchDist lm < 0.05) :
    processGestures lm = SceneMode.FOCUS := by
  unfold processGestures
  rw [if_pos h]

/-- A landmark set placing every point at the origin: its pinch distance
is zero, so `pinch_forces_focus` applies. -/
theorem pinch_forces_focus_witness :
    pinchDist lmZero < 0.05 ∧ processGestures lmZero = SceneMode.FOCUS := by
  have h : pinchDist lmZero < 0.05 := by
    have e : pinchDist lmZero = 0 := by
      unfold lmZero pinchDist dist3 hypot3
      simp
    rw [e]; norm_num
  exact ⟨h, pinch_forces_focus _ h⟩

/-- Claim C2: with no pinch (distance at least 0.05), the classifier
returns TREE when the average fingertip-to-wrist distance is below 0.25,
SCATTER when it exceeds 0.40, and TREE (the fallback) when the average
lies in the closed interval [0.25, 0.40]. -/
theorem fist_open_fallback (lm : Landmarks) (h : 0.05 ≤ pinchDist lm) :
    (avgDist lm < 0.25 → processGestures lm = SceneMode.TREE) ∧
    (avgDist lm > 0.4 → processGestures lm = SceneMode.SCATTER) ∧
    (0.25 ≤ avgDist lm ∧ avgDist lm ≤ 0.4 →
      processGestures lm = SceneMode.TREE) := by
  have hp : ¬ pinchDist lm < 0.05 := not_lt.2 h
  refine ⟨fun hfist => ?_, fun hopen => ?_, fun ⟨hlo, hhi⟩ => ?_⟩
  · unfold processGestures
    rw [if_neg hp, if_pos hfist]
  · unfold processGestures
    rw [if_neg hp,
      if_neg (not_lt.2 (le_trans (by norm_num) (le_of_lt hopen))),
      if_pos hopen]
  · unfold processGestures
    rw [if_neg hp, if_neg (not_lt.2 hlo), if_neg (not_lt.2 hhi)]

/-- A landmark set whose pinch distance is 1 (no pinch) and whose
fingertip distances are all zero, exercising `fist_open_fallback`. -/
theorem fist_open_fallback_witness :
    0.05 ≤ pinchDist lmFist ∧
      ((avgDist lmFist < 0.25 → processGestures lmFist = SceneMode.TREE) ∧
       (avgDist lmFist > 0.4 → processGestures lmFist = SceneMode.SCATTER) ∧
       (0.25 ≤ avgDist lmFist ∧ avgDist lmFist ≤ 0.4 →
         processGestures lmFist = SceneMode.TREE)) := by
  have h : 0.05 ≤ pinchDist lmFist := by
    have e : pinchDist lmFist = 1 := by
      unfold lmFist pinchDist dist3 hypot3
      norm_num [show ¬(8 : Fin 21) = (4 : Fin 21) from by decide, Real.sqrt_one]
    rw [e]; norm_num
  exact ⟨h, fist_open_fallback _ h⟩

end ChristmasTree

namespace ChristmasTree

lemma applyModeList_tree_idem (N : ℕ) (rng1 rng2 : ℕ → ℝ) :
    ∀ (l : List Particle) (i k1 k2 : ℕ),
      (applyModeList SceneMode.TREE none N rng2 i k2
        (applyModeList SceneMode.TREE none N rng1 i k1 l).1).1 =
      (applyModeList SceneMode.TREE none N rng1 i k1 l).1 := by
  intro l
  induction l with
  | nil => intro i k1 k2; rfl
  | cons p ps ih =>
      intro i k1 k2
      simp only [applyModeList]
      congr 1
      exact ih (i + 1) k1 k2

/-- Claim C3 (counterexample): no constant `height` makes the TREE
layout's vertical coordinate equal to `t * height - height / 2` (a
vertically centered span).  At `i = 1`, `N = 2` the code puts the
particle at `y = 0.5 * 26 - 12 = 1`, while `t * height - height / 2`
vanishes at `t = 1/2` for every `height`. -/
theorem tree_layout_not_centered :
    ¬ ∃ height : ℝ,
      (((setMode SceneMode.TREE rngZero sPair).particles[1]?).map
          fun p => p.targetPos.y) =
        some (treeT 1 2 * height - height / 2) := by
  rintro ⟨h, e⟩
  have h0 : treeT 1 2 * h - h / 2 = 0 := by
    unfold treeT
    push_cast
    ring
  rw [h0,
    setMode_nonfocus_particles SceneMode.TREE (by decide) rngZero sPair,
    applyModeList_getElem SceneMode.TREE none sPair.particles.length rngZero 0
      (applyMode_tree_snd none sPair.particles.length rngZero) sPair.particles 0 0 1] at e
  simp [sPair, mkParticle, applyMode, treePos, treeT] at e
  norm_num at e

/-- Claim C3 (amended): `setMode(TREE)` gives particle `i` of `N` the
target position `(cos(angle)*radius, t*26 - 12, sin(angle)*radius)` and
target yaw `angle`, with `t = i/N`, `radius = 14*(1 - t)` and
`angle = t*45*π`; the vertical span runs from `-12` at the base toward
`+14` at the apex (offset 12, not `height/2 = 13`), so the helix is not
centered vertically. -/
theorem setMode_tree_layout (s : SceneState) (rng : ℕ → ℝ) (j : ℕ) :
    ((setMode SceneMode.TREE rng s).particles)[j]? =
      (s.particles[j]?).map fun p =>
        { p with
            targetPos := treePos j s.particles.length
            targetRot := ⟨0, treeAngle j s.particles.length, 0⟩
            scale := 1 } := by
  rw [setMode_nonfocus_particles SceneMode.TREE (by decide) rng s,
    applyModeList_getElem SceneMode.TREE none s.particles.length rng 0
      (applyMode_tree_snd none s.particles.length rng) s.particles 0 0 j]
  simp [applyMode]

/-- Claim C4 (counterexample): two consecutive `setMode(SCATTER)` calls
need not produce the same targets, because the SCATTER branch redraws
each particle's shell radius from the random stream; with the valid
draw 0 the single particle's target z is `-8`, with the valid draw 1/2
it is `-15`.  The divergence is outside the FOCUS re-roll the claim
exempts. -/
theorem setMode_scatter_reroll :
    ValidRng rngZero ∧ ValidRng rngHalf ∧
    (((setMode SceneMode.SCATTER rngHalf
          (setMode SceneMode.SCATTER rngZero sOne)).particles[0]?).map
        fun p => p.targetPos.z) ≠
      (((setMode SceneMode.SCATTER rngZero sOne).particles[0]?).map
        fun p => p.targetPos.z) := by
  refine ⟨fun n => by unfold rngZero; norm_num,
          fun n => by unfold rngHalf; norm_num, ?_⟩
  simp only [setMode, focusPick, photosOf, applyModeList, applyMode, sOne,
    mkParticle, scatterPos, scatterRadius, scatterPhi, scatterTheta,
    rngZero, rngHalf]
  norm_num [Real.arccos_neg_one, Real.cos_pi]

/-- Claim C4 (amended): the TREE layout is a pure function of particle
index and count, so a second consecutive `setMode(TREE)` call leaves
the whole scene state unchanged whatever the random streams; SCATTER
and FOCUS layouts consume fresh random draws (shell radius; focus pick,
background angle and distance) and may differ between consecutive
calls, as `setMode_scatter_reroll` shows. -/
theorem setMode_tree_deterministic (s : SceneState) (rng1 rng2 : ℕ → ℝ) :
    setMode SceneMode.TREE rng2 (setMode SceneMode.TREE rng1 s) =
      setMode SceneMode.TREE rng1 s := by
  apply sceneExt
  · show (applyModeList SceneMode.TREE none
        ((setMode SceneMode.TREE rng1 s).particles.length) rng2 0 0
        ((setMode SceneMode.TREE rng1 s).particles)).1 =
      (setMode SceneMode.TREE rng1 s).particles
    rw [setMode_length, setMode_nonfocus_particles SceneMode.TREE (by decide) rng1 s]
    exact applyModeList_tree_idem s.particles.length rng1 rng2 s.particles 0 0 0
  · rfl
  · rfl
  · rfl

end ChristmasTree

namespace ChristmasTree

lemma map_originIndex_of_infoMap (l1 l2 : List Particle)
    (h : l1.map (fun p => (p.ptype, p.originIndex)) =
      l2.map fun p => (p.ptype, p.originIndex)) :
    l1.map (fun p => p.originIndex) = l2.map fun p => p.originIndex := by
  have h2 := congrArg (List.map Prod.snd) h
  simpa [List.map_map, Function.comp_def] using h2

lemma map_ptype_of_infoMap (l1 l2 : List Particle)
    (h : l1.map (fun p => (p.ptype, p.originIndex)) =
      l2.map fun p => (p.ptype, p.originIndex)) :
    l1.map (fun p => p.ptype) = l2.map fun p => p.ptype := by
  have h2 := congrArg (List.map Prod.fst) h
  simpa [List.map_map, Function.comp_def] using h2

lemma setMode_getElem_originIndex (m : SceneMode) (rng : ℕ → ℝ) (s : SceneState)
    (j : ℕ) :
    (((setMode m rng s).particles[j]?).map fun p => p.originIndex) =
      (s.particles[j]?).map fun p => p.originIndex := by
  rw [← List.getElem?_map, ← List.getElem?_map,
    map_originIndex_of_infoMap _ _ (setMode_infoMap m rng s)]

lemma setMode_getElem_ptype (m : SceneMode) (rng : ℕ → ℝ) (s : SceneState)
    (j : ℕ) :
    (((setMode m rng s).particles[j]?).map fun p => p.ptype) =
      (s.particles[j]?).map fun p => p.ptype := by
  rw [← List.getElem?_map, ← List.getElem?_map,
    map_ptype_of_infoMap _ _ (setMode_infoMap m rng s)]

/-- Claim C5: `addPhotoToScene` grows the particle list by one, leaves
every existing particle's identity index unchanged, and gives the new
particle the index equal to the prior particle count (and the PHOTO
category). -/
theorem addPhoto_identity (s : SceneState) (vel : Vec3) (rng : ℕ → ℝ) :
    (addPhotoToScene vel rng s).particles.length = s.particles.length + 1 ∧
    (∀ j, j < s.particles.length →
      (((addPhotoToScene vel rng s).particles[j]?).map fun p => p.originIndex) =
        (s.particles[j]?).map fun p => p.originIndex) ∧
    (((addPhotoToScene vel rng s).particles[s.particles.length]?).map
        fun p => p.originIndex) = some s.particles.length ∧
    (((addPhotoToScene vel rng s).particles[s.particles.length]?).map
        fun p => p.ptype) = some PType.PHOTO := by
  refine ⟨?_, fun j hj => ?_, ?_, ?_⟩
  · show (setMode s.mode rng _).particles.length = s.particles.length + 1
    rw [setMode_length]
    simp
  · show (((setMode s.mode rng _).particles[j]?).map fun p => p.originIndex) = _
    rw [setMode_getElem_originIndex]
    simp only [List.getElem?_append, if_pos hj]
  · show (((setMode s.mode rng _).particles[s.particles.length]?).map
        fun p => p.originIndex) = _
    rw [setMode_getElem_originIndex]
    rw [List.getElem?_append_right (le_refl s.particles.length)]
    simp [mkParticle]
  · show (((setMode s.mode rng _).particles[s.particles.length]?).map
        fun p => p.ptype) = _
    rw [setMode_getElem_ptype]
    rw [List.getElem?_append_right (le_refl s.particles.length)]
    simp [mkParticle]

/-- A concrete run of `addPhoto_identity` on the one-particle scene:
index 0 exists, so the preservation clause applies to it. -/
theorem addPhoto_identity_witness :
    (0 < sOne.particles.length) ∧
    ((addPhotoToScene ⟨0, 0, 0⟩ rngZero sOne).particles.length =
        sOne.particles.length + 1 ∧
      (((addPhotoToScene ⟨0, 0, 0⟩ rngZero sOne).particles[0]?).map
          fun p => p.originIndex) =
        (sOne.particles[0]?).map fun p => p.originIndex) := by
  have h := addPhoto_identity sOne ⟨0, 0, 0⟩ rngZero
  exact ⟨by norm_num [sOne], h.1, h.2.1 0 (by norm_num [sOne])⟩

/-- Claim C7: a frame with no landmark set yields mode TREE and an
absent pointer; a frame with a landmark set carries the classified mode
and the (x, y) of landmark 9 as pointer. -/
theorem predict_pointer :
    predictResult none = { mode := SceneMode.TREE, palmCenter := none } ∧
    ∀ lm : Landmarks,
      (predictResult (some lm)).mode = processGestures lm ∧
      (predictResult (some lm)).palmCenter = some ((lm 9).x, (lm 9).y) :=
  ⟨rfl, fun _ => ⟨rfl, rfl⟩⟩

/-- Claim C9: `updateInteraction` with an absent pointer is the
identity on the scene state; with a pointer `(x, y)` it changes only
the group rotation, lerping pitch toward `(y - 0.5) * (-0.6)` and yaw
toward `(x - 0.5) * 0.9` with factor 0.08, which contracts the distance
to each target by the factor `1 - 0.08` (exponential smoothing). -/
theorem updateInteraction_spec (s : SceneState) :
    updateInteraction none s = s ∧
    ∀ x y : ℝ,
      (updateInteraction (some (x, y)) s).particles = s.particles ∧
      (updateInteraction (some (x, y)) s).mode = s.mode ∧
      (updateInteraction (some (x, y)) s).focusTargetIdx = s.focusTargetIdx ∧
      (updateInteraction (some (x, y)) s).groupRot.z = s.groupRot.z ∧
      (updateInteraction (some (x, y)) s).groupRot.x =
        lerp s.groupRot.x ((y - 0.5) * (-0.6)) 0.08 ∧
      (updateInteraction (some (x, y)) s).groupRot.y =
        lerp s.groupRot.y ((x - 0.5) * 0.9) 0.08 ∧
      (updateInteraction (some (x, y)) s).groupRot.x - (y - 0.5) * (-0.6) =
        (1 - 0.08) * (s.groupRot.x - (y - 0.5) * (-0.6)) ∧
      (updateInteraction (some (x, y)) s).groupRot.y - (x - 0.5) * 0.9 =
        (1 - 0.08) * (s.groupRot.y - (x - 0.5) * 0.9) := by
  refine ⟨rfl, fun x y => ⟨rfl, rfl, rfl, rfl, rfl, rfl, ?_, ?_⟩⟩
  · show lerp s.groupRot.x ((y - 0.5) * (-0.6)) 0.08 - (y - 0.5) * (-0.6) = _
    unfold lerp
    ring
  · show lerp s.groupRot.y ((x - 0.5) * 0.9) 0.08 - (x - 0.5) * 0.9 = _
    unfold lerp
    ring

end ChristmasTree

namespace ChristmasTree

/-- Claim C8: `setMode(SCATTER)` gives particle `i` of `N` the target
`scatterPos i N u` built from polar angle `phi = acos(-1 + 2i/N)` and
azimuth `theta = sqrt(N*π) * phi`, where `u` is the particle's own
radius draw; the radius `8 + u*14` lies in the band `[8, 22)`
independently of `i`, and the target sits on the spherical shell of
exactly that radius. -/
theorem setMode_scatter_layout (s : SceneState) (rng : ℕ → ℝ)
    (hrng : ValidRng rng) (j : ℕ) :
    ((setMode SceneMode.SCATTER rng s).particles)[j]? =
      (s.particles[j]?).map (fun p =>
        { p with targetPos := scatterPos j s.particles.length (rng j), scale := 1 }) ∧
    8 ≤ scatterRadius (rng j) ∧ scatterRadius (rng j) < 22 ∧
    dist3 (scatterPos j s.particles.length (rng j)) ⟨0, 0, 0⟩ =
      scatterRadius (rng j) := by
  obtain ⟨h0, h1⟩ := hrng j
  have hr : (0 : ℝ) ≤ scatterRadius (rng j) := by
    unfold scatterRadius
    nlinarith
  refine ⟨?_, ?_, ?_, ?_⟩
  · rw [setMode_nonfocus_particles SceneMode.SCATTER (by decide) rng s,
      applyModeList_getElem SceneMode.SCATTER none s.particles.length rng 1
        (applyMode_scatter_snd none s.particles.length rng) s.particles 0 0 j]
    simp [applyMode]
  · unfold scatterRadius
    nlinarith
  · unfold scatterRadius
    nlinarith
  · unfold dist3 hypot3 scatterPos
    have hφ := Real.sin_sq_add_cos_sq (scatterPhi j s.particles.length)
    have hθ := Real.sin_sq_add_cos_sq (scatterTheta j s.particles.length)
    have key : (scatterRadius (rng j) * Real.cos (scatterTheta j s.particles.length) *
          Real.sin (scatterPhi j s.particles.length) - 0) ^ 2 +
        (scatterRadius (rng j) * Real.sin (scatterTheta j s.particles.length) *
          Real.sin (scatterPhi j s.particles.length) - 0) ^ 2 +
        (scatterRadius (rng j) * Real.cos (scatterPhi j s.particles.length) - 0) ^ 2 =
        (scatterRadius (rng j)) ^ 2 := by
      linear_combination (scatterRadius (rng j)) ^ 2 *
          (Real.sin (scatterPhi j s.particles.length)) ^ 2 * hθ +
        (scatterRadius (rng j)) ^ 2 * hφ
    rw [key, Real.sqrt_sq hr]

/-- A concrete run of `setMode_scatter_layout`: the all-zero stream is
valid, and on the one-particle scene the conclusion is instantiated at
index 0. -/
theorem setMode_scatter_layout_witness :
    ValidRng rngZero ∧
    (((setMode SceneMode.SCATTER rngZero sOne).particles)[0]? =
        (sOne.particles[0]?).map (fun p =>
          { p with targetPos := scatterPos 0 sOne.particles.length (rngZero 0), scale := 1 }) ∧
      8 ≤ scatterRadius (rngZero 0) ∧ scatterRadius (rngZero 0) < 22 ∧
      dist3 (scatterPos 0 sOne.particles.length (rngZero 0)) ⟨0, 0, 0⟩ =
        scatterRadius (rngZero 0)) := by
  have hv : ValidRng rngZero := fun n => by unfold rngZero; norm_num
  exact ⟨hv, setMode_scatter_layout sOne rngZero hv 0⟩

/-- Claim C6: on a scene with no PHOTO particles (whose focus invariant
holds, as it does in every reachable state), `setMode(FOCUS)` keeps the
focus target unset and routes every particle through the non-focused
branch: a randomized background position `focusBackPos` and the reduced
scale 0.4.  The embedding is total, so no exception can arise. -/
theorem setMode_focus_without_photos (s : SceneState) (rng : ℕ → ℝ)
    (hInv : Invariant s) (hph : photosOf s = []) :
    (setMode SceneMode.FOCUS rng s).focusTargetIdx = none ∧
    ∀ j : ℕ, ((setMode SceneMode.FOCUS rng s).particles)[j]? =
      (s.particles[j]?).map fun p =>
        { p with
            targetPos := focusBackPos (rng (2 * j)) (rng (2 * j + 1))
            scale := 0.4 } := by
  have hnone := focusTargetIdx_none_of_no_photos s hInv hph
  have hpk : focusPick s rng = (none, 0) := by
    unfold focusPick
    rw [hph]
    simp [hnone]
  constructor
  · show (focusPick s rng).1 = none
    rw [hpk]
  · intro j
    have hparts : (setMode SceneMode.FOCUS rng s).particles =
        (applyModeList SceneMode.FOCUS none s.particles.length rng 0 0 s.particles).1 := by
      show (applyModeList SceneMode.FOCUS (focusPick s rng).1 s.particles.length rng 0
          (focusPick s rng).2 s.particles).1 = _
      rw [hpk]
    rw [hparts,
      applyModeList_getElem SceneMode.FOCUS none s.particles.length rng 2
        (applyMode_focus_none_snd s.particles.length rng) s.particles 0 0 j]
    simp [applyMode]

/-- A concrete run of `setMode_focus_without_photos` on the photo-free
one-particle scene. -/
theorem setMode_focus_without_photos_witness :
    (Invariant sOne ∧ photosOf sOne = []) ∧
    ((setMode SceneMode.FOCUS rngZero sOne).focusTargetIdx = none ∧
     ∀ j : ℕ, ((setMode SceneMode.FOCUS rngZero sOne).particles)[j]? =
       (sOne.particles[j]?).map fun p =>
         { p with
             targetPos := focusBackPos (rngZero (2 * j)) (rngZero (2 * j + 1))
             scale := 0.4 }) := by
  have h1 : Invariant sOne := invariant_base _ _ _
  have h2 : photosOf sOne = [] := by
    simp [photosOf, sOne, mkParticle]
  exact ⟨⟨h1, h2⟩, setMode_focus_without_photos sOne rngZero h1 h2⟩

/-- Claim C10: in every state reachable from construction by mode
changes, photo uploads, render frames and pointer updates, the focus
target is unset outside FOCUS mode, and when set it names the
`originIndex` of a PHOTO particle of the list. -/
theorem reachable_invariant (s : SceneState) (h : Reachable s) : Invariant s := by
  induction h with
  | init s h =>
      obtain ⟨types, vels, rng1, rng2, vel, hv1, hv2, rfl⟩ := h
      exact invariant_addPhoto vel rng2 hv2 _
        (invariant_setMode SceneMode.TREE rng1 hv1 _ (invariant_base _ _ _))
  | step s t h hs ih =>
      cases hs with
      | set_mode m rng hv => exact invariant_setMode m rng hv s ih
      | add_photo vel rng hv => exact invariant_addPhoto vel rng hv s ih
      | frame => exact invariant_tick s ih
      | interact pc => exact invariant_interact pc s ih

/-- A concrete reachable state (the constructor run with all-zero
streams) on which `reachable_invariant` is instantiated. -/
theorem reachable_invariant_witness :
    Reachable (initScene (fun _ => PType.BOX) (fun _ => ⟨0, 0, 0⟩)
      rngZero rngZero ⟨0, 0, 0⟩) ∧
    Invariant (initScene (fun _ => PType.BOX) (fun _ => ⟨0, 0, 0⟩)
      rngZero rngZero ⟨0, 0, 0⟩) := by
  have hv : ValidRng rngZero := fun n => by unfold rngZero; norm_num
  have hr : Reachable (initScene (fun _ => PType.BOX) (fun _ => ⟨0, 0, 0⟩)
      rngZero rngZero ⟨0, 0, 0⟩) :=
    Reachable.init _ ⟨_, _, _, _, _, hv, hv, rfl⟩
  exact ⟨hr, reachable_invariant _ hr⟩

end ChristmasTree
